import Mathlib

/-!
Verification of the bookkeeper-finder-agent repository: a shallow embedding
of the x402 payment-gate middleware (src/x402_integration.py) and of the
Resource Handler (src/agent.py, BookkeeperFinderAgent.find_bookkeepers),
with theorems settling the specification claims about them.
-/

set_option maxHeartbeats 1000000
set_option maxRecDepth 100000
set_option linter.dupNamespace false

namespace Bookkeeper

/-- JSON values, the data interchanged by the middleware and the endpoint.
`rat` carries a Python float rendered as a decimal number (only
`price_charged`/`min_rating` use it). -/
inductive Json where
  | null : Json
  | bool (b : Bool) : Json
  | num (n : Int) : Json
  | rat (q : Rat) : Json
  | str (s : String) : Json
  | arr (xs : List Json) : Json
  | obj (fields : List (String × Json)) : Json

/-- Python dict `.get(k)`: the value at the first matching key, if present. -/
def jsonGet (j : Json) (k : String) : Option Json :=
  match j with
  | Json.obj fields => fields.lookup k
  | _ => none

/-- Python dict `.get(k, default)`. -/
def jsonGetD (j : Json) (k : String) (d : Json) : Json :=
  (jsonGet j k).getD d

/-- Python dict assignment `d[k] = v`: replaces the value at an existing key
in place (keeping insertion order), appends otherwise. -/
def jsonSet (j : Json) (k : String) (v : Json) : Json :=
  match j with
  | Json.obj fields =>
      if fields.any (fun p => p.1 = k) then
        Json.obj (fields.map (fun p => if p.1 = k then (p.1, v) else p))
      else
        Json.obj (fields ++ [(k, v)])
  | _ => j

/-- Indexing `xs[i]` on a JSON array (total: `null` out of range, as the
middleware never indexes out of range). -/
def jsonIndex (j : Json) (i : Nat) : Json :=
  match j with
  | Json.arr xs => (xs.get? i).getD Json.null
  | _ => Json.null

/-- Python truthiness of a JSON value: `False`, `None`, `0`, `""`, `[]` and
`{}` are falsy, everything else truthy. -/
def pyTruthy : Json → Bool
  | Json.null => false
  | Json.bool b => b
  | Json.num n => n != 0
  | Json.rat q => q != 0
  | Json.str s => s != ""
  | Json.arr xs => !xs.isEmpty
  | Json.obj fields => !fields.isEmpty

/-! ### JSON serialization (models Python json.dumps with default options) -/

/-- One hex digit (lowercase), as used in \uXXXX escapes. -/
def hexDigit (n : Nat) : Char :=
  let m := n % 16
  Char.ofNat (if m < 10 then 48 + m else 87 + m)

/-- Four-hex-digit rendering of a code unit below 0x10000. -/
def hex4 (n : Nat) : String :=
  String.mk [hexDigit (n / 4096), hexDigit (n / 256), hexDigit (n / 16), hexDigit n]

/-- \uXXXX escape of a code point (surrogate pair above 0xFFFF), as emitted
by json.dumps with ensure_ascii. -/
def uEsc (n : Nat) : String :=
  if n < 65536 then
    "\\u" ++ hex4 n
  else
    let m := n - 65536
    "\\u" ++ hex4 (55296 + m / 1024) ++ "\\u" ++ hex4 (56320 + m % 1024)

/-- Escape one character of a JSON string the way json.dumps does
(ensure_ascii default: short escapes, \u00XX for other controls, \uXXXX for
non-ASCII). -/
def escChar (c : Char) : String :=
  if c = '"' then "\\\""
  else if c = '\\' then "\\\\"
  else if c = '\n' then "\\n"
  else if c = '\t' then "\\t"
  else if c = '\r' then "\\r"
  else if c.toNat < 32 then uEsc c.toNat
  else if c.toNat ≥ 128 then uEsc c.toNat
  else String.singleton c

/-- Serialize a JSON string literal. -/
def dumpStr (s : String) : String :=
  "\"" ++ String.join (s.data.map escChar) ++ "\""

/-- Decimal rendering of the rationals we use for Python floats
(`repr` of a float with a short decimal expansion, e.g. 0.1, 4.0). -/
def dumpRat (q : Rat) : String :=
  if q.den = 1 then toString q.num ++ ".0"
  else if q.den ∣ 10 then
    let scaled := q.num * (10 / (q.den : Int))
    toString (scaled / 10) ++ "." ++ toString (scaled.natAbs % 10)
  else toString q.num ++ "/" ++ toString q.den

mutual

/-- json.dumps with the default separators (", " and ": "). -/
def jsonDumps : Json → String
  | Json.null => "null"
  | Json.bool true => "true"
  | Json.bool false => "false"
  | Json.num n => toString n
  | Json.rat q => dumpRat q
  | Json.str s => dumpStr s
  | Json.arr xs => "[" ++ dumpArr xs ++ "]"
  | Json.obj fields => "\x7b" ++ dumpObj fields ++ "\x7d"

/-- Comma-separated serialization of array elements. -/
def dumpArr : List Json → String
  | [] => ""
  | [x] => jsonDumps x
  | x :: xs => jsonDumps x ++ ", " ++ dumpArr xs

/-- Comma-separated serialization of object fields. -/
def dumpObj : List (String × Json) → String
  | [] => ""
  | [(k, v)] => dumpStr k ++ ": " ++ jsonDumps v
  | (k, v) :: fs => dumpStr k ++ ": " ++ jsonDumps v ++ ", " ++ dumpObj fs

end

/-! ### Base64 (models base64.b64encode / standard RFC 4648 decoding) -/

/-- Byte values of a string (the UTF-8 bytes; for the ASCII strings the
middleware emits these are the character codes). -/
def strBytes (s : String) : List Nat :=
  s.data.map Char.toNat

/-- The base64 alphabet character for a 6-bit value. -/
def b64Char (n : Nat) : Char :=
  let m := n % 64
  Char.ofNat
    (if m < 26 then 65 + m
     else if m < 52 then 97 + (m - 26)
     else if m < 62 then 48 + (m - 52)
     else if m = 62 then 43
     else 47)

/-- Inverse of the base64 alphabet. -/
def b64Val (c : Char) : Option Nat :=
  let v := c.toNat
  if 65 ≤ v ∧ v ≤ 90 then some (v - 65)
  else if 97 ≤ v ∧ v ≤ 122 then some (v - 97 + 26)
  else if 48 ≤ v ∧ v ≤ 57 then some (v - 48 + 52)
  else if v = 43 then some 62
  else if v = 47 then some 63
  else none

/-- base64.b64encode over a byte list, producing the character list of the
padded base64 text. -/
def b64encodeChars : List Nat → List Char
  | [] => []
  | [a] =>
      [b64Char (a / 4), b64Char (a % 4 * 16), '=', '=']
  | [a, b] =>
      [b64Char (a / 4), b64Char (a % 4 * 16 + b / 16), b64Char (b % 16 * 4), '=']
  | a :: b :: c :: rest =>
      b64Char (a / 4) :: b64Char (a % 4 * 16 + b / 16) ::
      b64Char (b % 16 * 4 + c / 64) :: b64Char (c % 64) :: b64encodeChars rest

/-- base64.b64encode over a byte list as a string. -/
def b64encodeStr (l : List Nat) : String :=
  String.mk (b64encodeChars l)

/-- Standard base64 decoding to bytes (none on invalid input). -/
def b64decodeChars : List Char → Option (List Nat)
  | [] => some []
  | c1 :: c2 :: c3 :: c4 :: rest =>
      match b64Val c1, b64Val c2 with
      | some v1, some v2 =>
          if c3 = '=' then
            if c4 = '=' ∧ rest = [] then some [v1 * 4 + v2 / 16] else none
          else
            match b64Val c3 with
            | some v3 =>
                if c4 = '=' then
                  if rest = [] then some [v1 * 4 + v2 / 16, v2 % 16 * 16 + v3 / 4]
                  else none
                else
                  match b64Val c4 with
                  | some v4 =>
                      (b64decodeChars rest).map
                        (fun bs => (v1 * 4 + v2 / 16) :: (v2 % 16 * 16 + v3 / 4) ::
                                   (v3 % 4 * 64 + v4) :: bs)
                  | none => none
            | none => none
      | _, _ => none
  | _ => none

/-- Standard base64 decoding of a string. -/
def b64decodeStr (s : String) : Option (List Nat) :=
  b64decodeChars s.data

theorem b64Val_b64Char {n : Nat} (h : n < 64) : b64Val (b64Char n) = some n := by
  revert h
  revert n
  decide

theorem b64Char_ne_pad {n : Nat} (h : n < 64) : b64Char n ≠ '=' := by
  revert h
  revert n
  decide

/-- Round trip: decoding the base64 encoding of a byte list recovers it. -/
theorem b64_roundtrip (l : List Nat) (h : ∀ b ∈ l, b < 256) :
    b64decodeChars (b64encodeChars l) = some l := by
  induction l using b64encodeChars.induct with
  | case1 => rfl
  | case2 a =>
      have ha : a < 256 := h a (by simp)
      have h1 : a / 4 < 64 := by omega
      have h2 : a % 4 * 16 < 64 := by omega
      have e1 : a / 4 * 4 + a % 4 * 16 / 16 = a := by omega
      simp only [b64encodeChars, b64decodeChars, b64Val_b64Char h1, b64Val_b64Char h2,
        and_self, if_true, e1]
  | case3 a b =>
      have ha : a < 256 := h a (by simp)
      have hb : b < 256 := h b (by simp)
      have h1 : a / 4 < 64 := by omega
      have h2 : a % 4 * 16 + b / 16 < 64 := by omega
      have h3 : b % 16 * 4 < 64 := by omega
      have e1 : a / 4 * 4 + (a % 4 * 16 + b / 16) / 16 = a := by omega
      have e2 : (a % 4 * 16 + b / 16) % 16 * 16 + b % 16 * 4 / 4 = b := by omega
      simp only [b64encodeChars, b64decodeChars, b64Val_b64Char h1, b64Val_b64Char h2]
      rw [if_neg (b64Char_ne_pad h3)]
      simp only [b64Val_b64Char h3, if_true, e1, e2]
  | case4 a b c rest ih =>
      have ha : a < 256 := h a (by simp)
      have hb : b < 256 := h b (by simp)
      have hc : c < 256 := h c (by simp)
      have hrest : ∀ x ∈ rest, x < 256 := fun x hx => h x (by simp [hx])
      have h1 : a / 4 < 64 := by omega
      have h2 : a % 4 * 16 + b / 16 < 64 := by omega
      have h3 : b % 16 * 4 + c / 64 < 64 := by omega
      have h4 : c % 64 < 64 := by omega
      have e1 : a / 4 * 4 + (a % 4 * 16 + b / 16) / 16 = a := by omega
      have e2 : (a % 4 * 16 + b / 16) % 16 * 16 + (b % 16 * 4 + c / 64) / 4 = b := by omega
      have e3 : (b % 16 * 4 + c / 64) % 4 * 64 + c % 64 = c := by omega
      simp only [b64encodeChars, b64decodeChars, b64Val_b64Char h1, b64Val_b64Char h2]
      rw [if_neg (b64Char_ne_pad h3)]
      simp only [b64Val_b64Char h3]
      rw [if_neg (b64Char_ne_pad h4)]
      simp only [b64Val_b64Char h4, ih hrest, Option.map, e1, e2, e3]

/-! ### Configuration (src/x402_integration.py, defaults: env vars unset) -/

/-- BASE_WALLET_ADDRESS default. -/
def WALLET_ADDRESS : String := "0xb3e17988e6eE4D31e6D07decf363f736461d9e08"

/-- Network: Base mainnet (CAIP-2 format). -/
def NETWORK : String := "eip155:8453"

/-- USDC contract on Base mainnet. -/
def USDC_ADDRESS : String := "0x833589fCD6eDb6E08f4c7C32D4f71b54bdA02913"

/-- X402_PRICE_BASE_UNITS default (0.10 USDC = 100000 with 6 decimals). -/
def PRICE_BASE_UNITS : String := "100000"

/-- build_payment_required: the x402 v2 PaymentRequired object. -/
def buildPaymentRequired (requestUrl : String) : Json :=
  Json.obj [
    ("x402Version", Json.num 2),
    ("error", Json.str "Payment required"),
    ("resource", Json.obj [
      ("url", Json.str requestUrl),
      ("description", Json.str "Find verified bookkeepers and accountants"),
      ("mimeType", Json.str "application/json")]),
    ("accepts", Json.arr [
      Json.obj [
        ("scheme", Json.str "exact"),
        ("network", Json.str NETWORK),
        ("asset", Json.str USDC_ADDRESS),
        ("amount", Json.str PRICE_BASE_UNITS),
        ("payTo", Json.str WALLET_ADDRESS),
        ("maxTimeoutSeconds", Json.num 300),
        ("extra", Json.obj [
          ("name", Json.str "USDC"),
          ("version", Json.str "2")])]])]

/-- encode_payment_required: base64 of the JSON serialization, for the
PAYMENT-REQUIRED header. -/
def encodePaymentRequired (pr : Json) : String :=
  b64encodeStr (strBytes (jsonDumps pr))

/-- Prefix test on character lists. -/
def isPrefixList : List Char → List Char → Bool
  | [], _ => true
  | _ :: _, [] => false
  | a :: as, b :: bs => a == b && isPrefixList as bs

/-- Substring search on character lists. -/
def containsSub (hay needle : List Char) : Bool :=
  match hay with
  | [] => needle.isEmpty
  | _ :: t => isPrefixList needle hay || containsSub t needle

/-- Substring test (`needle in haystack` on Python strings). -/
def strContains (haystack needle : String) : Bool :=
  containsSub haystack.data needle.data

/-- ASCII lowercasing (str.lower on the strings involved here). -/
def lowerStr (s : String) : String :=
  String.mk (s.data.map (fun c =>
    if 65 ≤ c.toNat ∧ c.toNat ≤ 90 then Char.ofNat (c.toNat + 32) else c))

/-! ### HTTP model -/

/-- An incoming HTTP request as the middleware sees it: method, url path,
full url string, and the header map. -/
structure Request where
  method : String
  path : String
  url : String
  headers : List (String × String)

/-- An HTTP response: status code, JSON body, response headers. -/
structure HttpResponse where
  status : Nat
  body : Json
  headers : List (String × String)

/-- Case-insensitive header lookup (Starlette header maps are
case-insensitive). -/
def getHeader (req : Request) (name : String) : Option String :=
  (req.headers.find? (fun p => lowerStr p.1 == lowerStr name)).map Prod.snd

/-- The payment header the middleware selects: Python
`a or b or c or d` over the four spellings returns the first truthy
(non-empty) value; the `if not payment_header` branch fires when none is
truthy. -/
def truthyPaymentHeader (req : Request) : Option String :=
  ([getHeader req "payment-signature", getHeader req "PAYMENT-SIGNATURE",
    getHeader req "x-payment", getHeader req "X-PAYMENT"].filterMap
      (fun o => match o with
        | some s => if s = "" then none else some s
        | none => none)).head?

/-- The environment of external effects the middleware calls into:
decoding the payment header (`json.loads(base64.b64decode(...))`, `none`
when that raises), the facilitator verify and settle POSTs (`Except.error`
models a raised exception such as a network error or timeout), and the
downstream application (`call_next`). -/
structure GateEnv where
  decodePayload : String → Option Json
  verify : Json → Json → Except String Json
  settle : Json → Json → Except String Json
  callNext : Request → HttpResponse

/-- Outcome of running the middleware on one request: the response sent to
the caller, and whether `call_next` (the Resource Handler path) was
invoked. -/
structure GateResult where
  response : HttpResponse
  handlerInvoked : Bool

/-- `pr["accepts"][0]`: the single payment requirement the middleware
passes to the facilitator. -/
def accepts0 (pr : Json) : Json :=
  jsonIndex (jsonGetD pr "accepts" (Json.arr [])) 0

/-- The requirements object for a request, exactly as the middleware
computes it. -/
def requirementsOf (req : Request) : Json :=
  accepts0 (buildPaymentRequired req.url)

/-- The paths the middleware skips unconditionally. -/
def skipPaths : List String := ["/", "/health", "/docs", "/openapi.json", "/payment-info"]

/-- Tail of the middleware once payment is accepted (or the facilitator
call failed): run the application; on a 200, try to settle, and only on a
successful settle result attach the PAYMENT-RESPONSE header. -/
def fulfill (env : GateEnv) (req : Request) (payload requirements : Json) : GateResult :=
  if (env.callNext req).status = 200 then
    match env.settle payload requirements with
    | Except.ok settleResult =>
        if pyTruthy (jsonGetD settleResult "success" Json.null) then
          let annotated : HttpResponse :=
            { env.callNext req with
              headers := (env.callNext req).headers ++
                [("PAYMENT-RESPONSE", b64encodeStr (strBytes (jsonDumps settleResult)))] }
          { response := annotated, handlerInvoked := true }
        else
          { response := env.callNext req, handlerInvoked := true }
    | Except.error _ => { response := env.callNext req, handlerInvoked := true }
  else
    { response := env.callNext req, handlerInvoked := true }

/-- x402_middleware (src/x402_integration.py): skip unprotected routes;
402 challenge when the payment header is missing or undecodable; verify
with the facilitator, 402 echoing its reason when it reports invalid,
proceed when it accepts or when the verify call raises; then fulfill and
settle. -/
def x402Middleware (env : GateEnv) (req : Request) : GateResult :=
  if req.path ∈ skipPaths then
    { response := env.callNext req, handlerInvoked := true }
  else if req.method ≠ "POST" ∨ req.path ∉ (["/find", "/api/search"] : List String) then
    { response := env.callNext req, handlerInvoked := true }
  else
    match truthyPaymentHeader req with
    | none =>
        let pr := buildPaymentRequired req.url
        let resp : HttpResponse :=
          { status := 402, body := pr,
            headers := [("PAYMENT-REQUIRED", encodePaymentRequired pr)] }
        { response := resp, handlerInvoked := false }
    | some paymentHeader =>
        match env.decodePayload paymentHeader with
        | none =>
            let pr := jsonSet (buildPaymentRequired req.url) "error"
              (Json.str "Invalid payment signature")
            let resp : HttpResponse :=
              { status := 402, body := pr,
                headers := [("PAYMENT-REQUIRED", encodePaymentRequired pr)] }
            { response := resp, handlerInvoked := false }
        | some payload =>
            let pr := buildPaymentRequired req.url
            let requirements := accepts0 pr
            match env.verify payload requirements with
            | Except.ok verifyResult =>
                if pyTruthy (jsonGetD verifyResult "isValid" (Json.bool false)) then
                  fulfill env req payload requirements
                else
                  let reason := jsonGetD verifyResult "invalidReason"
                    (Json.str "Payment verification failed")
                  let resp : HttpResponse :=
                    { status := 402,
                      body := Json.obj [("error", reason)],
                      headers := [("PAYMENT-REQUIRED", encodePaymentRequired pr)] }
                  { response := resp, handlerInvoked := false }
            | Except.error _ => fulfill env req payload requirements

/-! ### Resource Handler (src/agent.py, BookkeeperFinderAgent), in the
configuration with no external API keys set (APIFY_API_TOKEN and
YELP_API_KEY unset), where every step uses the mock/deterministic path. -/

/-- Oracle for the Python standard library PRNG and hash: `randAfterSeed s i`
is the i-th `random.random()` draw after `random.seed(s)`;
`randintAfterSeed s i lo hi` the i-th `random.randint(lo, hi)` after
`random.seed(s)`; `globalRandint i lo hi` an unseeded global `randint`
draw; `pyHash` the builtin `hash` on strings. The theorems below hold for
every oracle. -/
structure PyRandom where
  randAfterSeed : String → Nat → Rat
  randintAfterSeed : String → Nat → Nat → Nat → Nat
  globalRandint : Nat → Nat → Nat → Nat
  pyHash : String → Int

/-- A trivial oracle used to instantiate universally quantified theorems. -/
def trivialRandom : PyRandom :=
  { randAfterSeed := fun _ _ => 0,
    randintAfterSeed := fun _ _ lo _ => lo,
    globalRandint := fun _ lo _ => lo,
    pyHash := fun _ => 0 }

/-- _is_california: any of the indicator substrings occurs in the
lowercased location. -/
def isCalifornia (location : String) : Bool :=
  let indicators := ["ca", "california", "los angeles", "san francisco", "san diego",
    "sacramento", "san jose", "oakland", "fresno", "riverside"]
  indicators.any (fun ind => strContains (lowerStr location) ind)

/-- One raw search hit (the dict produced by _get_mock_bookkeepers). -/
structure MockEntry where
  name : String
  address : String
  phone : String
  website : Option String
  googlePlaceId : String
  rating : Rat
  reviewCount : Nat
  categories : List String

/-- _get_mock_bookkeepers: eight templated businesses for the city, with
rating 0 and review_count 0. -/
def getMockBookkeepers (rng : PyRandom) (_service location : String) : List MockEntry :=
  let city := if strContains location "," then
                String.mk (location.data.takeWhile (fun c => c != ','))
              else location
  let mockNames := [
    city ++ " Bookkeeping & Tax",
    "Elite " ++ city ++ " Accounting",
    "Premier Financial Services " ++ city,
    city ++ " Small Business Accounting",
    "Professional Bookkeepers " ++ city,
    city ++ " Tax & Accounting",
    "Accurate Books " ++ city,
    city ++ " CPA Services"]
  (mockNames.enum).map (fun p =>
    { name := p.2,
      address := toString (rng.globalRandint (2 * p.1) 100 9999) ++ " Business St, " ++ location,
      phone := "555-" ++ toString (rng.globalRandint (2 * p.1 + 1) 1000 9999),
      website := none,
      googlePlaceId := "mock_" ++ toString ((rng.pyHash p.2).emod 100000),
      rating := 0,
      reviewCount := 0,
      categories := ["Accountant", "Bookkeeper", "Tax Service"] })

/-- The Bookkeeper dataclass. -/
structure Bookkeeper where
  name : String
  licenseNumber : String
  licenseStatus : String
  phone : Option String
  rating : Rat
  reviewCount : Nat
  verified : Bool
  address : Option String
  website : Option String
  yelpUrl : Option String
  cbaUrl : Option String
  quickbooksCertified : Bool
  services : List String

/-- _determine_services from the entry categories. -/
def determineServices (categories : List String) : List String :=
  let base := ["Bookkeeping", "Accounting"]
  let catText := lowerStr (String.intercalate " " categories)
  let s1 := if strContains catText "tax" then base ++ ["Tax Preparation"] else base
  let s2 := if strContains catText "payroll" then s1 ++ ["Payroll Services"] else s1
  if strContains catText "consulting" || strContains catText "advisor" then
    s2 ++ ["Financial Consulting"]
  else s2

/-- _verify_license: generic (non-CA) verification; all data comes from the
PRNG seeded with the business name. -/
def verifyLicense (rng : PyRandom) (b : MockEntry) : Bookkeeper :=
  let d0 := rng.randAfterSeed b.name 0
  let licenseStatus := if d0 > 1/5 then "ACTIVE" else "NOT VERIFIED"
  let d1 := rng.randAfterSeed b.name 1
  let licenseNumber :=
    if d1 > 3/10 then "CPA-" ++ toString (rng.randintAfterSeed b.name 2 10000 99999)
    else "N/A"
  { name := b.name,
    licenseNumber := licenseNumber,
    licenseStatus := licenseStatus,
    phone := some b.phone,
    rating := b.rating,
    reviewCount := b.reviewCount,
    verified := licenseStatus = "ACTIVE",
    address := some b.address,
    website := b.website,
    yelpUrl := none,
    cbaUrl := none,
    quickbooksCertified := false,
    services := determineServices b.categories }

/-- _verify_cba_license: the California path, PRNG seeded with
name + "cba". -/
def verifyCbaLicense (rng : PyRandom) (b : MockEntry) : Bookkeeper :=
  let seed := b.name ++ "cba"
  let isCpa := rng.randAfterSeed seed 0 > 3/10
  let licenseNum :=
    if isCpa then toString (rng.randintAfterSeed seed 1 10000 99999) else "N/A"
  let licenseStatus := if isCpa then "ACTIVE" else "NOT LICENSED"
  { name := b.name,
    licenseNumber := if isCpa then "CPA-" ++ licenseNum else "N/A",
    licenseStatus := licenseStatus,
    phone := some b.phone,
    rating := b.rating,
    reviewCount := b.reviewCount,
    verified := isCpa,
    address := some b.address,
    website := b.website,
    yelpUrl := none,
    cbaUrl := if isCpa then some "https://www.dca.ca.gov/cba/consumers/verify_license.shtml"
              else none,
    quickbooksCertified := false,
    services := determineServices b.categories }

/-- The error message of the AttributeError raised at Step 3 of
find_bookkeepers: the method called there, `_check_quickbooks_cert`, does
not exist on the class (the defined method is named
`_check_quickbooks_certified`). -/
def attrErrMsg : String :=
  "AttributeError: BookkeeperFinderAgent object has no attribute _check_quickbooks_cert"

/-- find_bookkeepers (src/agent.py): Step 1 mock search, Step 2 license
verification, then Step 3 evaluates `self._check_quickbooks_cert(b)` on the
first truthy element of `verified` — an attribute the class does not have —
so it raises whenever `verified` is non-empty (Bookkeeper objects are
always truthy). With an empty `verified` the remaining steps run on empty
lists and the result dict has empty results. `now` is
`datetime.now().isoformat()`. -/
def findBookkeepers (rng : PyRandom) (now : String)
    (service location : String) (minRating : Rat) : Except String Json :=
  let bookkeepers := getMockBookkeepers rng service location
  let verified : List (Option Bookkeeper) :=
    if isCalifornia location then bookkeepers.map (fun b => some (verifyCbaLicense rng b))
    else bookkeepers.map (fun b => some (verifyLicense rng b))
  if (verified.filterMap id).isEmpty then
    Except.ok (Json.obj [
      ("query", Json.obj [
        ("service", Json.str service),
        ("location", Json.str location),
        ("min_rating", Json.rat minRating)]),
      ("results", Json.arr []),
      ("count", Json.num 0),
      ("price_charged", Json.rat (1/10)),
      ("data_sources",
        if isCalifornia location then
          Json.arr [Json.str "Google Maps", Json.str "CBA", Json.str "Yelp",
            Json.str "QuickBooks"]
        else
          Json.arr [Json.str "Google Maps", Json.str "Yelp", Json.str "QuickBooks"]),
      ("timestamp", Json.str now)])
  else
    Except.error attrErrMsg

/-! ### The paid endpoint (find_bookkeepers_endpoint) composed with the
framework error handling -/

/-- The request body model with its defaults. -/
structure FindRequest where
  trade : String := "bookkeeper"
  service : String := "bookkeeper"
  location : String := "Miami, FL"
  minRating : Rat := 4

/-- find_bookkeepers_endpoint: `body.trade or body.service or "bookkeeper"`
then the agent call, annotating the result with the payment confirmation
fields. An uncaught exception from the agent is turned into a plain 500 by
the framework (Starlette ServerErrorMiddleware). -/
def findBookkeepersEndpoint (rng : PyRandom) (now : String)
    (body : FindRequest) : HttpResponse :=
  let service := if body.trade ≠ "" then body.trade
                 else if body.service ≠ "" then body.service
                 else "bookkeeper"
  match findBookkeepers rng now service body.location body.minRating with
  | Except.ok result =>
      let annotated := jsonSet (jsonSet (jsonSet result
        "payment_status" (Json.str "received"))
        "payment_amount" (Json.str "0.10 USDC"))
        "payment_network" (Json.str NETWORK)
      { status := 200, body := annotated, headers := [] }
  | Except.error _ =>
      { status := 500, body := Json.str "Internal Server Error", headers := [] }

/-! ### Concrete instances used by witnesses -/

/-- An environment whose facilitator and decoder are never reached
successfully; the downstream app returns a fixed 200. -/
def dummyEnv : GateEnv :=
  { decodePayload := fun _ => none,
    verify := fun _ _ => Except.error "unreachable",
    settle := fun _ _ => Except.error "unreachable",
    callNext := fun _ => { status := 200, body := Json.null, headers := [] } }

/-- A POST to /find with no headers at all. -/
def reqNoPay : Request :=
  { method := "POST", path := "/find", url := "http://localhost/find", headers := [] }

/-- A POST to /find carrying an X-PAYMENT header. -/
def reqPaid : Request :=
  { method := "POST", path := "/find", url := "http://localhost/find",
    headers := [("X-PAYMENT", "eyJhIjogMX0=")] }

/-! ### Claim theorems -/

/-- C1: a POST to a protected route (/find or /api/search) with no payment
header yields a 402 whose body is the PaymentRequirement with the
configured scheme/network/asset/amount/payee, and the Resource Handler is
not invoked. -/
theorem missing_payment_challenge (env : GateEnv) (req : Request)
    (hm : req.method = "POST")
    (hp : req.path = "/find" ∨ req.path = "/api/search")
    (hh : truthyPaymentHeader req = none) :
    (x402Middleware env req).response.status = 402 ∧
    (x402Middleware env req).handlerInvoked = false ∧
    (x402Middleware env req).response.body = buildPaymentRequired req.url ∧
    jsonGet (accepts0 (x402Middleware env req).response.body) "scheme"
      = some (Json.str "exact") ∧
    jsonGet (accepts0 (x402Middleware env req).response.body) "network"
      = some (Json.str "eip155:8453") ∧
    jsonGet (accepts0 (x402Middleware env req).response.body) "asset"
      = some (Json.str "0x833589fCD6eDb6E08f4c7C32D4f71b54bdA02913") ∧
    jsonGet (accepts0 (x402Middleware env req).response.body) "amount"
      = some (Json.str "100000") ∧
    jsonGet (accepts0 (x402Middleware env req).response.body) "payTo"
      = some (Json.str "0xb3e17988e6eE4D31e6D07decf363f736461d9e08") := by
  rcases hp with hp | hp <;>
    simp [x402Middleware, skipPaths, hm, hp, hh, buildPaymentRequired, accepts0,
      jsonGet, jsonGetD, jsonIndex, NETWORK, USDC_ADDRESS, PRICE_BASE_UNITS, WALLET_ADDRESS,
      List.lookup]

/-- C1 witness at a concrete request. -/
theorem missing_payment_challenge_witness :
    (x402Middleware dummyEnv reqNoPay).response.status = 402 ∧
    (x402Middleware dummyEnv reqNoPay).handlerInvoked = false ∧
    jsonGet (accepts0 (x402Middleware dummyEnv reqNoPay).response.body) "amount"
      = some (Json.str "100000") := by
  have h := missing_payment_challenge dummyEnv reqNoPay rfl (Or.inl rfl) rfl
  exact ⟨h.1, h.2.1, h.2.2.2.2.2.2.1⟩

/-- C3: a payment header that is present but does not decode to JSON
yields a 402 (never a 500) with the explicit reason "Invalid payment
signature", without invoking the Resource Handler. -/
theorem malformed_payment_challenge (env : GateEnv) (req : Request) (ph : String)
    (hm : req.method = "POST")
    (hp : req.path = "/find" ∨ req.path = "/api/search")
    (hh : truthyPaymentHeader req = some ph)
    (hd : env.decodePayload ph = none) :
    (x402Middleware env req).response.status = 402 ∧
    (x402Middleware env req).response.status ≠ 500 ∧
    jsonGet (x402Middleware env req).response.body "error"
      = some (Json.str "Invalid payment signature") ∧
    (x402Middleware env req).handlerInvoked = false := by
  rcases hp with hp | hp <;>
    simp [x402Middleware, skipPaths, hm, hp, hh, hd, buildPaymentRequired, jsonSet,
      jsonGet, List.lookup]

/-- C3 witness at a concrete request whose header decodes to nothing. -/
theorem malformed_payment_challenge_witness :
    (x402Middleware dummyEnv reqPaid).response.status = 402 ∧
    jsonGet (x402Middleware dummyEnv reqPaid).response.body "error"
      = some (Json.str "Invalid payment signature") := by
  have h := malformed_payment_challenge dummyEnv reqPaid "eyJhIjogMX0=" rfl (Or.inl rfl)
    rfl rfl
  exact ⟨h.1, h.2.2.1⟩

/-- C4: structurally valid evidence that the facilitator reports invalid
yields a 402 whose body carries exactly the facilitator's invalidReason,
and the Resource Handler is not invoked. -/
theorem facilitator_rejected_402 (env : GateEnv) (req : Request)
    (ph reason : String) (payload vr : Json)
    (hm : req.method = "POST")
    (hp : req.path = "/find" ∨ req.path = "/api/search")
    (hh : truthyPaymentHeader req = some ph)
    (hd : env.decodePayload ph = some payload)
    (hv : env.verify payload (requirementsOf req) = Except.ok vr)
    (hiv : pyTruthy (jsonGetD vr "isValid" (Json.bool false)) = false)
    (hr : jsonGet vr "invalidReason" = some (Json.str reason)) :
    (x402Middleware env req).response.status = 402 ∧
    (x402Middleware env req).response.body = Json.obj [("error", Json.str reason)] ∧
    (x402Middleware env req).handlerInvoked = false := by
  simp only [requirementsOf] at hv
  simp only [jsonGetD] at hiv
  rcases hp with hp | hp <;>
    simp [x402Middleware, skipPaths, hm, hp, hh, hd, hv, hiv, jsonGetD, hr]

/-- Environment whose facilitator rejects the payment with a concrete
reason. -/
def envReject : GateEnv :=
  { decodePayload := fun _ => some (Json.obj [("authorization", Json.obj [])]),
    verify := fun _ _ => Except.ok (Json.obj [
      ("isValid", Json.bool false), ("invalidReason", Json.str "insufficient_funds")]),
    settle := fun _ _ => Except.error "unreachable",
    callNext := fun _ => { status := 200, body := Json.null, headers := [] } }

/-- C4 witness at a concrete rejected payment. -/
theorem facilitator_rejected_402_witness :
    (x402Middleware envReject reqPaid).response.status = 402 ∧
    (x402Middleware envReject reqPaid).response.body
      = Json.obj [("error", Json.str "insufficient_funds")] ∧
    (x402Middleware envReject reqPaid).handlerInvoked = false := by
  exact facilitator_rejected_402 envReject reqPaid "eyJhIjogMX0=" "insufficient_funds"
    (Json.obj [("authorization", Json.obj [])])
    (Json.obj [("isValid", Json.bool false), ("invalidReason", Json.str "insufficient_funds")])
    rfl (Or.inl rfl) rfl rfl rfl rfl rfl

/-- C6: when the facilitator verify call itself raises, the middleware
follows one consistent policy: it always fails open, proceeding to invoke
the Resource Handler and returning its response status unchanged. -/
theorem facilitator_error_fail_open (env : GateEnv) (req : Request)
    (ph e : String) (payload : Json)
    (hm : req.method = "POST")
    (hp : req.path = "/find" ∨ req.path = "/api/search")
    (hh : truthyPaymentHeader req = some ph)
    (hd : env.decodePayload ph = some payload)
    (hv : env.verify payload (requirementsOf req) = Except.error e) :
    (x402Middleware env req).handlerInvoked = true ∧
    (x402Middleware env req).response.status = (env.callNext req).status := by
  simp only [requirementsOf] at hv
  rcases hp with hp | hp <;>
  · simp [x402Middleware, skipPaths, hm, hp, hh, hd, hv]
    unfold fulfill
    split
    all_goals try split
    all_goals try split
    all_goals simp

/-- Environment whose facilitator verify call raises. -/
def envVerifyError : GateEnv :=
  { decodePayload := fun _ => some (Json.obj [("authorization", Json.obj [])]),
    verify := fun _ _ => Except.error "ConnectTimeout",
    settle := fun _ _ => Except.error "ConnectTimeout",
    callNext := fun _ => { status := 200, body := Json.str "served", headers := [] } }

/-- C6 witness at a concrete unreachable facilitator. -/
theorem facilitator_error_fail_open_witness :
    (x402Middleware envVerifyError reqPaid).handlerInvoked = true ∧
    (x402Middleware envVerifyError reqPaid).response.status = 200 := by
  exact facilitator_error_fail_open envVerifyError reqPaid "eyJhIjogMX0="
    "ConnectTimeout" (Json.obj [("authorization", Json.obj [])]) rfl (Or.inl rfl)
    rfl rfl rfl

/-- Whether the middleware proceeds past verification to the handler:
the facilitator accepted (truthy isValid), or the verify call raised
(fail-open branch). -/
def proceedsToHandler (env : GateEnv) (payload requirements : Json) : Bool :=
  match env.verify payload requirements with
  | Except.ok vr => pyTruthy (jsonGetD vr "isValid" (Json.bool false))
  | Except.error _ => true

theorem fulfill_status_body (env : GateEnv) (req : Request)
    (payload requirements : Json) :
    (fulfill env req payload requirements).handlerInvoked = true ∧
    (fulfill env req payload requirements).response.status = (env.callNext req).status ∧
    (fulfill env req payload requirements).response.body = (env.callNext req).body := by
  unfold fulfill
  split
  all_goals try split
  all_goals try split
  all_goals simp

theorem fulfill_headers_200 (env : GateEnv) (req : Request)
    (payload requirements : Json)
    (h200 : (env.callNext req).status = 200) :
    (fulfill env req payload requirements).response.headers =
      (env.callNext req).headers ++
        (match env.settle payload requirements with
         | Except.ok sr =>
             if pyTruthy (jsonGetD sr "success" Json.null) then
               [("PAYMENT-RESPONSE", b64encodeStr (strBytes (jsonDumps sr)))]
             else []
         | Except.error _ => []) := by
  unfold fulfill
  rw [if_pos h200]
  split
  · split <;> simp
  · simp

/-- C7: for a fulfilled request with a 200 from the inner handler, a
settlement failure (exception or non-success result) leaves the response
exactly as the handler produced it; only on settlement success is the
response changed, and only by appending the PAYMENT-RESPONSE header with
the base64-encoded settlement receipt. -/
theorem settlement_frame (env : GateEnv) (req : Request)
    (ph : String) (payload : Json)
    (hm : req.method = "POST")
    (hp : req.path = "/find" ∨ req.path = "/api/search")
    (hh : truthyPaymentHeader req = some ph)
    (hd : env.decodePayload ph = some payload)
    (hpr : proceedsToHandler env payload (requirementsOf req) = true)
    (h200 : (env.callNext req).status = 200) :
    (x402Middleware env req).response.status = 200 ∧
    (x402Middleware env req).response.body = (env.callNext req).body ∧
    (x402Middleware env req).response.headers =
      (env.callNext req).headers ++
        (match env.settle payload (requirementsOf req) with
         | Except.ok sr =>
             if pyTruthy (jsonGetD sr "success" Json.null) then
               [("PAYMENT-RESPONSE", b64encodeStr (strBytes (jsonDumps sr)))]
             else []
         | Except.error _ => []) := by
  have hred : x402Middleware env req = fulfill env req payload (requirementsOf req) := by
    simp only [proceedsToHandler, requirementsOf] at hpr
    rcases hval : env.verify payload (accepts0 (buildPaymentRequired req.url)) with e | vr
    · rcases hp with hp | hp <;>
        simp [x402Middleware, skipPaths, hm, hp, hh, hd, hval, requirementsOf]
    · rw [hval] at hpr
      simp only at hpr
      rcases hp with hp | hp <;>
        simp [x402Middleware, skipPaths, hm, hp, hh, hd, hval, hpr, requirementsOf]
  rw [hred]
  refine ⟨?_, (fulfill_status_body env req payload (requirementsOf req)).2.2,
    fulfill_headers_200 env req payload (requirementsOf req) h200⟩
  rw [(fulfill_status_body env req payload (requirementsOf req)).2.1, h200]

/-- C7 witness: with an unreachable settlement endpoint the caller-visible
response is exactly the handler's. -/
theorem settlement_frame_witness :
    (x402Middleware envVerifyError reqPaid).response.status = 200 ∧
    (x402Middleware envVerifyError reqPaid).response.body = Json.str "served" ∧
    (x402Middleware envVerifyError reqPaid).response.headers = [] := by
  have h := settlement_frame envVerifyError reqPaid "eyJhIjogMX0="
    (Json.obj [("authorization", Json.obj [])]) rfl (Or.inl rfl) rfl rfl rfl rfl
  exact ⟨h.1, h.2.1, by rw [h.2.2]; rfl⟩

/-! ### The dual-channel property of challenge responses (C5) -/

/-- The PAYMENT-REQUIRED header value of a gate result. -/
def challengeHeader (r : GateResult) : String :=
  (r.response.headers.lookup "PAYMENT-REQUIRED").getD ""

/-- C5 as amended: for the missing-evidence and malformed-evidence 402s the
PAYMENT-REQUIRED header base64-decodes to exactly the serialized response
body; for the facilitator-rejected 402 the header still carries the full
base64 PaymentRequirement while the body is the bare error object, so the
two channels differ. -/
theorem challenge_header_channel (env : GateEnv) (req : Request)
    (hm : req.method = "POST")
    (hp : req.path = "/find" ∨ req.path = "/api/search")
    (hA : ∀ b ∈ strBytes (jsonDumps (buildPaymentRequired req.url)), b < 256)
    (hB : ∀ b ∈ strBytes (jsonDumps (jsonSet (buildPaymentRequired req.url) "error"
      (Json.str "Invalid payment signature"))), b < 256) :
    (truthyPaymentHeader req = none →
      b64decodeStr (challengeHeader (x402Middleware env req))
        = some (strBytes (jsonDumps (x402Middleware env req).response.body))) ∧
    (∀ ph, truthyPaymentHeader req = some ph → env.decodePayload ph = none →
      b64decodeStr (challengeHeader (x402Middleware env req))
        = some (strBytes (jsonDumps (x402Middleware env req).response.body))) ∧
    (∀ ph payload vr, truthyPaymentHeader req = some ph →
      env.decodePayload ph = some payload →
      env.verify payload (requirementsOf req) = Except.ok vr →
      pyTruthy (jsonGetD vr "isValid" (Json.bool false)) = false →
      challengeHeader (x402Middleware env req)
        = encodePaymentRequired (buildPaymentRequired req.url) ∧
      (x402Middleware env req).response.body
        = Json.obj [("error",
            jsonGetD vr "invalidReason" (Json.str "Payment verification failed"))]) := by
  refine ⟨?_, ?_, ?_⟩
  · intro hh
    rcases hp with hp | hp <;>
    · simp [x402Middleware, skipPaths, hm, hp, hh, challengeHeader, List.lookup,
        encodePaymentRequired, b64decodeStr, b64encodeStr]
      exact b64_roundtrip _ hA
  · intro ph hh hd
    rcases hp with hp | hp <;>
    · simp [x402Middleware, skipPaths, hm, hp, hh, hd, challengeHeader, List.lookup,
        encodePaymentRequired, b64decodeStr, b64encodeStr]
      exact b64_roundtrip _ hB
  · intro ph payload vr hh hd hv hiv
    simp only [requirementsOf] at hv
    simp only [jsonGetD] at hiv
    rcases hp with hp | hp <;>
    · simp [x402Middleware, skipPaths, hm, hp, hh, hd, hv, hiv, challengeHeader,
        List.lookup, jsonGetD]

/-- C5 witness: on the missing-evidence challenge the header decodes to the
body document. -/
theorem challenge_header_channel_witness :
    b64decodeStr (challengeHeader (x402Middleware dummyEnv reqNoPay))
      = some (strBytes (jsonDumps (x402Middleware dummyEnv reqNoPay).response.body)) := by
  exact (challenge_header_channel dummyEnv reqNoPay rfl (Or.inl rfl)
    (by decide) (by decide)).1 rfl

/-- C5 counterexample: on a facilitator-rejected 402, the PAYMENT-REQUIRED
header does not decode to the response body (the body is the bare error
object, the header the full PaymentRequirement). -/
theorem header_body_mismatch_on_reject :
    (x402Middleware envReject reqPaid).response.status = 402 ∧
    b64decodeStr (challengeHeader (x402Middleware envReject reqPaid))
      ≠ some (strBytes (jsonDumps (x402Middleware envReject reqPaid).response.body)) := by
  constructor
  · rfl
  · decide

/-! ### The Resource Handler claims (C2, C8, C9, C10) -/

/-- C8: find_bookkeepers never returns a results list at all: for every
oracle, timestamp and query it raises the AttributeError from the
misspelled method call at Step 3. -/
theorem find_bookkeepers_always_raises (rng : PyRandom) (now service location : String)
    (minRating : Rat) :
    findBookkeepers rng now service location minRating = Except.error attrErrMsg := by
  unfold findBookkeepers getMockBookkeepers
  cases h : isCalifornia location <;>
    simp [h, List.enum, List.enumFrom, List.filterMap_cons]

/-- C8 witness at a concrete query. -/
theorem find_bookkeepers_always_raises_witness :
    findBookkeepers trivialRandom "2026-02-03T04:05:06" "bookkeeper" "Austin, TX" 4
      = Except.error attrErrMsg :=
  find_bookkeepers_always_raises trivialRandom "2026-02-03T04:05:06" "bookkeeper"
    "Austin, TX" 4

/-- A second oracle, to compare two invocations under different PRNG states
and timestamps. -/
def trivialRandom2 : PyRandom :=
  { randAfterSeed := fun _ _ => 1,
    randintAfterSeed := fun _ _ _ hi => hi,
    globalRandint := fun _ _ hi => hi,
    pyHash := fun _ => 1 }

/-- C9: two invocations of find_bookkeepers with the same arguments agree
only because both raise the same AttributeError; no result dictionary is
ever produced. -/
theorem find_bookkeepers_no_result_dict :
    findBookkeepers trivialRandom "2026-01-01T00:00:00" "bookkeeper" "Miami, FL" 4
      = findBookkeepers trivialRandom2 "2026-01-02T00:00:00" "bookkeeper" "Miami, FL" 4 ∧
    findBookkeepers trivialRandom "2026-01-01T00:00:00" "bookkeeper" "Miami, FL" 4
      = Except.error attrErrMsg :=
  ⟨rfl, rfl⟩

/-- C10: the rating filter of Step 5 is unreachable — on the California
path too, the call raises before filtering, for any min_rating. -/
theorem find_bookkeepers_rating_filter_unreachable :
    findBookkeepers trivialRandom "2026-01-01T00:00:00" "cpa" "Los Angeles, CA" 4
      = Except.error attrErrMsg ∧
    findBookkeepers trivialRandom "2026-01-01T00:00:00" "cpa" "Los Angeles, CA" 0
      = Except.error attrErrMsg :=
  ⟨rfl, rfl⟩

/-- Environment whose facilitator accepts every payment and whose
downstream application is the real /find endpoint over the agent. -/
def envAccept (rng : PyRandom) : GateEnv :=
  { decodePayload := fun _ => some (Json.obj [("authorization", Json.obj [])]),
    verify := fun _ _ => Except.ok (Json.obj [("isValid", Json.bool true)]),
    settle := fun _ _ => Except.error "facilitator unavailable",
    callNext := fun _ => findBookkeepersEndpoint rng "2026-01-01T00:00:00" {} }

/-- C2: with payment evidence the facilitator accepts, the gate does invoke
the Resource Handler, but the response is a 500, not the claimed 200 with
payment_status fields: the handler raises the AttributeError of the
misspelled Step 3 call. -/
theorem accepted_payment_yields_500 :
    (x402Middleware (envAccept trivialRandom) reqPaid).handlerInvoked = true ∧
    (x402Middleware (envAccept trivialRandom) reqPaid).response.status = 500 ∧
    (x402Middleware (envAccept trivialRandom) reqPaid).response.status ≠ 200 := by
  refine ⟨rfl, rfl, by decide⟩

end Bookkeeper
